import Mathlib

/-!
Shallow embedding of the trading-trend-detector repository.

Numeric model: Python floats are modelled as rationals.  A value that is
absent, or that Python would classify as non-finite (NaN, plus or minus
infinity), is modelled by `none : Option ℚ`; every `some q` is a finite
value.  Python's `round(x, 4)` is modelled as round-half-to-even on the
scaled rational.

Sources embedded:
- src/data-processor/main.py: validate_float, calculate_ema,
  detect_breakout_patterns, calculate_statistics, broadcast_to_clients,
  get_stock, get_stock_ema.
- src/data-service/main.py: fetch_stock_data (replay cursor with
  gap-filling), broadcast_stock_data, websocket_endpoint's subscribe path.
-/

attribute [local semireducible] Rat.mul Rat.add Rat.sub Rat.inv Rat.ofScientific

/-- Round-half-to-even to an integer, as Python's builtin round does. -/
def roundHalfEven (q : ℚ) : ℤ :=
  let f := ⌊q⌋
  if q - f < 1/2 then f
  else if (1:ℚ)/2 < q - f then f + 1
  else if f % 2 = 0 then f else f + 1

/-- Python round(x, 4): round to 4 decimal places, ties to even. -/
def pyRound4 (q : ℚ) : ℚ := (roundHalfEven (q * 10000) : ℚ) / 10000

/-- validate_float from src/data-processor/main.py.  Input `none` covers
a Python value that is None or non-finite (NaN, plus or minus infinity),
none of which are representable in the rational model; any finite value is
rounded to 4 decimal places. -/
def validate_float : Option ℚ → Option ℚ
  | none => none
  | some q => some (pyRound4 q)

/-- calculate_ema from src/data-processor/main.py.  The argument `prev`
is the stored entry of the per-period EMA dictionary for this symbol:
`none` models the symbol being absent from the dictionary.  The code
initializes to the current price when the symbol is absent or the stored
value is exactly 0; otherwise it applies the recursive weighting. The
returned value is also what the code stores back into the dictionary. -/
def calculate_ema (current_price : ℚ) (period : ℕ) (prev : Option ℚ) : ℚ :=
  match prev with
  | none => current_price
  | some e =>
    if e = 0 then current_price
    else
      let multiplier : ℚ := 2 / (1 + (period : ℚ))
      current_price * multiplier + e * (1 - multiplier)

/-- The two defined crossover relationships of detect_breakout_patterns. -/
inductive CrossState
  | bullish
  | bearish
deriving DecidableEq

/-- The current-state classification inside detect_breakout_patterns:
bullish when ema38 is strictly above ema100, bearish when strictly below,
otherwise None. -/
def classify (ema38 ema100 : ℚ) : Option CrossState :=
  if ema100 < ema38 then some CrossState.bullish
  else if ema38 < ema100 then some CrossState.bearish
  else none

/-- detect_breakout_patterns from src/data-processor/main.py.  Returns
((is_bullish_breakout, is_bearish_breakout), new stored previous state).
A flag fires only when the previous state is defined and differs from the
current classification; the stored state is always overwritten with the
current classification. -/
def detect_breakout_patterns (prev : Option CrossState) (ema38 ema100 : ℚ) :
    (Bool × Bool) × Option CrossState :=
  let current := classify ema38 ema100
  let flags : Bool × Bool :=
    if prev ≠ current ∧ prev ≠ none then
      match current with
      | some CrossState.bullish => (true, false)
      | some CrossState.bearish => (false, true)
      | none => (false, false)
    else (false, false)
  (flags, current)

/-- Per-symbol mutable state of the data processor: the price history
list, the two EMA dictionary entries (none models absence from the
dictionary), and the stored crossover state. -/
structure SymbolState where
  price_history : List ℚ
  ema38 : Option ℚ
  ema100 : Option ℚ
  prev_state : Option CrossState
deriving DecidableEq

/-- A symbol that has never been processed: absent from every dictionary. -/
def initState : SymbolState := ⟨[], none, none, none⟩

/-- The statistics dictionary returned by calculate_statistics. -/
structure Stats where
  current_price : Option ℚ
  price_change : Option ℚ
  price_change_percent : Option ℚ
  ema38 : Option ℚ
  ema100 : Option ℚ
  samples_collected : ℕ
  is_bullish_breakout : Bool
  is_bearish_breakout : Bool
deriving DecidableEq

/-- calculate_statistics from src/data-processor/main.py, as a function
of the prior per-symbol state and the incoming price, returning the new
state and the statistics dictionary.  Notes kept faithful to the source:
the price is validated first and an invalid price returns all-null fields
without touching state; the history is appended then trimmed to the last
100 entries; both EMA dictionary entries are pre-initialized to 0 when
absent before calculate_ema runs; breakout detection runs only when both
validated EMAs are available and more than 2 samples exist.  The source's
catch-all exception handler is not modelled: no modelled operation can
raise. -/
def calculate_statistics (s : SymbolState) (current_price : Option ℚ) :
    SymbolState × Stats :=
  match validate_float current_price with
  | none =>
    (s, ⟨none, none, none, none, none, s.price_history.length, false, false⟩)
  | some p =>
    let hist0 := s.price_history ++ [p]
    let hist := if 100 < hist0.length then hist0.drop (hist0.length - 100) else hist0
    let ema38 := calculate_ema p 38 (some (s.ema38.getD 0))
    let ema100 := calculate_ema p 100 (some (s.ema100.getD 0))
    let safe38 := validate_float (some ema38)
    let safe100 := validate_float (some ema100)
    let pc : Option ℚ × Option ℚ :=
      if 2 ≤ hist.length then
        match hist.get? (hist.length - 2) with
        | some prevPrice =>
          if prevPrice ≠ 0 then
            (validate_float (some (p - prevPrice)),
             validate_float (some ((p - prevPrice) / prevPrice * 100)))
          else (none, none)
        | none => (none, none)
      else (none, none)
    let evalCross : Bool := safe38.isSome && safe100.isSome && decide (2 < hist.length)
    let db :=
      if evalCross then detect_breakout_patterns s.prev_state (safe38.getD 0) (safe100.getD 0)
      else ((false, false), s.prev_state)
    (⟨hist, some ema38, some ema100, db.2⟩,
     ⟨some p, pc.1, pc.2, safe38, safe100, hist.length, db.1.1, db.1.2⟩)

/-- Fold a stream of incoming prices through calculate_statistics,
starting from a never-seen symbol. -/
def run_updates (ps : List (Option ℚ)) : SymbolState :=
  ps.foldl (fun s p => (calculate_statistics s p).1) initState

/-- The classification that calculate_statistics hands to
detect_breakout_patterns for state `s` and incoming price `q`: the
classify of the two validated (rounded) EMA values. -/
def curOf (s : SymbolState) (q : ℚ) : Option CrossState :=
  classify (pyRound4 (calculate_ema (pyRound4 q) 38 (some (s.ema38.getD 0))))
           (pyRound4 (calculate_ema (pyRound4 q) 100 (some (s.ema100.getD 0))))

/-!
Replay cursor, src/data-service/main.py fetch_stock_data.

load_stock_data filters the loaded table with isin(ALLOWED_STOCKS) and
then sort_values, neither of which resets the pandas row index: each row
keeps its original label.  fetch_stock_data mixes the two index notions:
it reads the current row positionally (iloc[current_index]) yet then
assigns a row label (next_time_idx[0], a label of the filtered frame) to
current_index.  The embedding therefore carries each row's label
explicitly next to its position in the sorted list.
-/

/-- One row of the sorted, filtered tick table: its pandas label, symbol,
security type, price (none when the Last field was blank or non-numeric),
and trading time. -/
structure LRow where
  label : ℕ
  id : String
  secType : String
  last : Option ℚ
  time : ℕ
deriving DecidableEq

/-- The reset at the top of fetch_stock_data: positions at or past the
end restart from 0. -/
def reset_index (store : List LRow) (idx : ℕ) : ℕ :=
  if store.length ≤ idx then 0 else idx

/-- current_time := stock_data.iloc[current_index]['Trading time'], after
the reset; positional access into the sorted list (0 for an empty store,
unreachable in use). -/
def batch_time (store : List LRow) (idx : ℕ) : ℕ :=
  ((store.get? (reset_index store idx)).map (fun r => r.time)).getD 0

/-- current_batch := all rows of the table sharing the current
timestamp. -/
def current_batch (store : List LRow) (t : ℕ) : List LRow :=
  store.filter (fun r => r.time = t)

/-- The advancement step at the bottom of fetch_stock_data: the pandas
label of the first row with a strictly later trading time, or 0 when no
such row exists (cyclic restart). -/
def advance_index (store : List LRow) (t : ℕ) : ℕ :=
  match store.filter (fun r => t < r.time) with
  | [] => 0
  | r :: _ => r.label

/-- fetch_stock_data from src/data-service/main.py, cursor part: returns
the rows of the produced batch, the batch's trading time, and the new
value of current_index. -/
def fetch_stock_data (store : List LRow) (idx : ℕ) : List LRow × ℕ × ℕ :=
  let t := batch_time store idx
  (current_batch store t, t, advance_index store t)

/-!
Gap filling: the per-symbol loop body inside fetch_stock_data that builds
current_data["stocks"].
-/

/-- Tags distinguishing a batch-native price from a gap-filled one. -/
inductive PriceType
  | current
  | last_known
deriving DecidableEq

/-- One entry of current_data["stocks"]. -/
structure StockEntry where
  price : ℚ
  sec_type : String
  price_type : PriceType
deriving DecidableEq

/-- The body of the `for stock_id in ALLOWED_STOCKS` loop in
fetch_stock_data.  Arguments: the first row of the current batch matching
this symbol (none when the symbol has no record at this timestamp), the
stored last known price for the symbol, and the security type of the
symbol's most recent record in the whole table (used only by the
synthesized entry; the code reads it with iloc[-1], which presupposes the
symbol occurs in the table — guaranteed whenever a last known price
exists).  Returns the entry added to the batch, if any, and the new last
known price. -/
def process_symbol (row : Option LRow) (lk : Option ℚ) (histSec : String) :
    Option StockEntry × Option ℚ :=
  match row with
  | some r =>
    let price : Option ℚ :=
      match r.last with
      | none => lk
      | some p => some p
    let lk' : Option ℚ :=
      match r.last with
      | none => lk
      | some p => some p
    match price with
    | none => (none, lk')
    | some pr =>
      (some ⟨pr, r.secType,
        if r.last = none then PriceType.last_known else PriceType.current⟩, lk')
  | none =>
    match lk with
    | none => (none, none)
    | some v => (some ⟨v, histSec, PriceType.last_known⟩, some v)

/-- The whole current_data["stocks"] mapping built by the loop: the loop
runs once per tracked symbol, each iteration writing only its own key, so
the resulting mapping is pointwise process_symbol applied to the first
batch row carrying the symbol. -/
def build_batch (tracked : List String) (rows : List LRow)
    (lk : String → Option ℚ) (histSec : String → String) :
    String → Option StockEntry :=
  fun sym =>
    if sym ∈ tracked then
      (process_symbol (rows.find? (fun r => r.id = sym)) (lk sym) (histSec sym)).1
    else none

/-!
Broadcaster fan-out.
-/

/-- The loop of broadcast_stock_data in src/data-service/main.py:
`for connection in active_connections` over the live Python list itself,
with `active_connections.remove(connection)` on a send failure.  A Python
list iterator holds a bare position that advances by one each step and
stops once it reaches the current length, so the embedding tracks the
position `i` into the current list explicitly; `fails c` tells whether
sending to connection `c` raises.  The fuel argument only bounds the
recursion; `conns.length` steps always suffice because every step
increases `i` and never lengthens the list.  Returns (connections the
message was delivered to, final connection list). -/
def bcast_go (fails : ℕ → Bool) : ℕ → List ℕ → ℕ → List ℕ → List ℕ × List ℕ
  | 0, conns, _, delivered => (delivered, conns)
  | fuel + 1, conns, i, delivered =>
    match conns.get? i with
    | none => (delivered, conns)
    | some c =>
      if fails c then bcast_go fails fuel (conns.erase c) (i + 1) delivered
      else bcast_go fails fuel conns (i + 1) (delivered ++ [c])

/-- broadcast_stock_data from src/data-service/main.py: one fan-out round
over the given connection list. -/
def broadcast_stock_data (fails : ℕ → Bool) (conns : List ℕ) : List ℕ × List ℕ :=
  bcast_go fails (conns.length) conns 0 []

/-- broadcast_to_clients from src/data-processor/main.py: it iterates
over `active_connections.copy()`, so every connection present at the
start of the round gets a send attempt; a failing connection is removed
from the live set only.  Returns (connections delivered to, final
connection set as a list). -/
def broadcast_to_clients (fails : ℕ → Bool) (conns : List ℕ) : List ℕ × List ℕ :=
  conns.foldl
    (fun acc c => if fails c then (acc.1, acc.2.erase c) else (acc.1 ++ [c], acc.2))
    ([], conns)

/-!
Broadcaster rounds and the subscribe path (src/data-service/main.py,
stock_data_worker and websocket_endpoint).  Both call fetch_stock_data,
which advances the module-global current_index shared between them.
The delivery log maps a subscriber name to the trading times of the
batches it has received, in order.
-/

/-- One round of stock_data_worker: fetch the next batch and deliver it
to every current subscriber. -/
def worker_round (store : List LRow) (subs : List String)
    (st : ℕ × (String → List ℕ)) : ℕ × (String → List ℕ) :=
  let f := fetch_stock_data store st.1
  (f.2.2, fun n => if n ∈ subs then st.2 n ++ [f.2.1] else st.2 n)

/-- The subscribe path of websocket_endpoint: it too calls
fetch_stock_data() — advancing the shared cursor — and sends the fetched
batch to the new subscriber only. -/
def subscribe_fetch (store : List LRow) (newSub : String)
    (st : ℕ × (String → List ℕ)) : ℕ × (String → List ℕ) :=
  let f := fetch_stock_data store st.1
  (f.2.2, fun n => if n = newSub then st.2 n ++ [f.2.1] else st.2 n)

/-!
Query surface of the data processor (src/data-processor/main.py).
latest_tick_data is modelled as Option (List SnapEntry): none while no
batch has been processed ("stocks" key absent / falsy dict), otherwise
the processed_stocks list.
-/

/-- One element of latest_tick_data["stocks"] (a Python list of dicts). -/
structure SnapEntry where
  stock_id : String
  current_price : Option ℚ
  ema38 : Option ℚ
  ema100 : Option ℚ
  is_bullish_breakout : Bool
  is_bearish_breakout : Bool
deriving DecidableEq

/-- Result of the /stock/{stock_id} endpoint. -/
inductive StockResponse
  | noData
  | notFoundFor (sid : String)
  | ok (e : SnapEntry)
deriving DecidableEq

/-- get_stock from src/data-processor/main.py: a pure read of the latest
snapshot; next(...) takes the first list element with a matching
stock_id, and a miss returns the per-symbol error dict. -/
def get_stock (snap : Option (List SnapEntry)) (sid : String) : StockResponse :=
  match snap with
  | none => StockResponse.noData
  | some stocks =>
    match stocks.find? (fun st => st.stock_id = sid) with
    | none => StockResponse.notFoundFor sid
    | some st => StockResponse.ok st

/-- Result of the /api/stocks/{stock_id}/ema endpoint.  err404 carries
the HTTPException detail; raisedAttrError models the unhandled Python
AttributeError (surfacing as an HTTP 500). -/
inductive EmaResponse
  | err404 (detail : String)
  | raisedAttrError
  | ok (e : SnapEntry)
deriving DecidableEq

/-- get_stock_ema from src/data-processor/main.py.  After the no-data
guard it evaluates latest_tick_data["stocks"].get(stock_id); but
latest_tick_data["stocks"] is the processed_stocks list (built with
append in connect_to_broadcaster), and a Python list has no attribute
named get, so the expression raises AttributeError unconditionally —
before any comparison with stock_id can occur. -/
def get_stock_ema (snap : Option (List SnapEntry)) (_sid : String) : EmaResponse :=
  match snap with
  | none => EmaResponse.err404 "No stock data available"
  | some _ => EmaResponse.raisedAttrError

/-!
Helper definitions naming the intermediate values of calculate_statistics
on a valid price, used to state and prove the claims.
-/

/-- The trimmed price history calculate_statistics stores for state `s`
and incoming valid price `q`. -/
def histOf (s : SymbolState) (q : ℚ) : List ℚ :=
  let hist0 := s.price_history ++ [pyRound4 q]
  if 100 < hist0.length then hist0.drop (hist0.length - 100) else hist0

/-- The raw (unrounded) EMA-38 value calculate_statistics stores. -/
def rawE38 (s : SymbolState) (q : ℚ) : ℚ :=
  calculate_ema (pyRound4 q) 38 (some (s.ema38.getD 0))

/-- The raw (unrounded) EMA-100 value calculate_statistics stores. -/
def rawE100 (s : SymbolState) (q : ℚ) : ℚ :=
  calculate_ema (pyRound4 q) 100 (some (s.ema100.getD 0))

theorem cs_hist (s : SymbolState) (q : ℚ) :
    (calculate_statistics s (some q)).1.price_history = histOf s q := rfl

theorem cs_e38 (s : SymbolState) (q : ℚ) :
    (calculate_statistics s (some q)).1.ema38 = some (rawE38 s q) := rfl

theorem cs_e100 (s : SymbolState) (q : ℚ) :
    (calculate_statistics s (some q)).1.ema100 = some (rawE100 s q) := rfl

theorem cs_samples (s : SymbolState) (q : ℚ) :
    (calculate_statistics s (some q)).2.samples_collected = (histOf s q).length := rfl

/-!
Concrete inputs used by the evaluation theorems.
-/

/-- A symbol name from ALLOWED_STOCKS. -/
def symA : String := "A1EX2F.ETR"

/-- A symbol identifier that the snapshot does not contain. -/
def symZ : String := "ZZZ"

/-- An equity security-type tag. -/
def secE : String := "E"

/-- Subscriber names. -/
def subA : String := "A"

def subB : String := "B"

/-- A snapshot entry for symA. -/
def demoEntry : SnapEntry := ⟨symA, some 5, some 5, some 5, false, false⟩

/-- A failure model where exactly connection 0 errors on send. -/
def failsZero : ℕ → Bool := fun c => c == 0

/-- A sorted tick table as load_stock_data leaves it when the row between
the two kept rows was dropped by the isin filter: pandas labels 0 and 2
at list positions 0 and 1, with distinct trading times 1 and 2. -/
def storeGap : List LRow := [⟨0, symA, secE, some 1, 1⟩, ⟨2, symA, secE, some 2, 2⟩]

/-- A sorted tick table whose labels coincide with positions (so the
cursor advances correctly), with three distinct trading times. -/
def storeSeq : List LRow :=
  [⟨0, symA, secE, some 10, 1⟩, ⟨1, symA, secE, some 11, 2⟩, ⟨2, symA, secE, some 12, 3⟩]

/-- C5 (confirmed): an update with an absent or non-finite price returns
an entry whose derived fields are all null with samples_collected equal
to its prior value, and leaves the price history, both stored EMAs and
the stored prior relationship unchanged. -/
theorem c5_invalid_price_noop (s : SymbolState) :
    calculate_statistics s none
      = (s, ⟨none, none, none, none, none, s.price_history.length, false, false⟩) := rfl

/-- C10 (confirmed): a stored EMA of exactly 0 at the start of an update
with a valid price is indistinguishable from an uninitialized EMA: in
both cases calculate_ema re-initializes to the current price instead of
applying the recursive weighting, for either period and at the level of
calculate_statistics for both stored EMAs. -/
theorem c10_zero_ema_reinit :
    (∀ (p : ℚ) (j : ℕ), calculate_ema p j none = p) ∧
    (∀ (p : ℚ) (j : ℕ), calculate_ema p j (some 0) = p) ∧
    (∀ (s : SymbolState) (q : ℚ),
       (calculate_statistics { s with ema38 := some 0 } (some q)).1.ema38
         = (calculate_statistics { s with ema38 := none } (some q)).1.ema38) ∧
    (∀ (s : SymbolState) (q : ℚ),
       (calculate_statistics { s with ema38 := some 0 } (some q)).1.ema38
         = some (pyRound4 q)) ∧
    (∀ (s : SymbolState) (q : ℚ),
       (calculate_statistics { s with ema100 := some 0 } (some q)).1.ema100
         = (calculate_statistics { s with ema100 := none } (some q)).1.ema100) ∧
    (∀ (s : SymbolState) (q : ℚ),
       (calculate_statistics { s with ema100 := some 0 } (some q)).1.ema100
         = some (pyRound4 q)) := by
  refine ⟨fun p j => rfl, fun p j => by simp [calculate_ema], ?_, ?_, ?_, ?_⟩ <;>
    intro s q <;> simp [cs_e38, cs_e100, rawE38, rawE100, calculate_ema]

/-- C3 (confirmed): in the per-symbol batch construction of
fetch_stock_data, a tracked symbol whose record has a blank price, or
that has no record at the current timestamp, but has a last known price,
is emitted with that last known price tagged last_known; a symbol whose
record carries a valid price is emitted with it tagged current (and the
last known price is updated); a symbol with no valid price and no last
known price is absent from the batch; and the batch mapping is exactly
this per-symbol computation for tracked symbols, absent otherwise. -/
theorem c3_gap_filling :
    (∀ (lb : ℕ) (sid st : String) (t : ℕ) (v : ℚ) (hs : String),
       process_symbol (some ⟨lb, sid, st, none, t⟩) (some v) hs
         = (some ⟨v, st, PriceType.last_known⟩, some v)) ∧
    (∀ (lb : ℕ) (sid st : String) (t : ℕ) (p : ℚ) (lk : Option ℚ) (hs : String),
       process_symbol (some ⟨lb, sid, st, some p, t⟩) lk hs
         = (some ⟨p, st, PriceType.current⟩, some p)) ∧
    (∀ (v : ℚ) (hs : String),
       process_symbol none (some v) hs = (some ⟨v, hs, PriceType.last_known⟩, some v)) ∧
    (∀ hs : String, process_symbol none none hs = (none, none)) ∧
    (∀ (lb : ℕ) (sid st : String) (t : ℕ) (hs : String),
       process_symbol (some ⟨lb, sid, st, none, t⟩) none hs = (none, none)) ∧
    (∀ (tracked : List String) (rows : List LRow) (lk : String → Option ℚ)
       (hs : String → String) (sym : String),
       build_batch tracked rows lk hs sym
         = if sym ∈ tracked then
             (process_symbol (rows.find? (fun r => r.id = sym)) (lk sym) (hs sym)).1
           else none) :=
  ⟨fun _ _ _ _ _ _ => rfl, fun _ _ _ _ _ _ _ => rfl, fun _ _ => rfl,
   fun _ => rfl, fun _ _ _ _ _ => rfl, fun _ _ _ _ _ => rfl⟩

/-- C4 (code_bug, evaluation at the failing input): with live connection
list [0, 1] where sending to connection 0 fails, broadcast_stock_data of
the data service delivers the round's message to nobody — connection 1,
which does not fail, is skipped because the list is mutated while being
iterated — although 1 stays in the live set; broadcast_to_clients of the
data processor, which iterates a copy, delivers to connection 1 as the
claim requires. -/
theorem c4_fanout_skip_demo :
    broadcast_stock_data failsZero [0, 1] = ([], [1]) ∧
    broadcast_to_clients failsZero [0, 1] = ([1], [1]) := by decide

/-- C7 (code_bug, evaluation at the failing input): on storeGap (two
rows with distinct times 1 and 2, pandas labels 0 and 2 because an
intervening row was filtered out at load), the first fetch produces the
batch at time 1 and stores label 2 as the new position; the second fetch
treats that label positionally, finds it at-or-past the end of the
2-element table, resets, and produces the batch at time 1 again — never
advancing to the distinct timestamp 2 that the store contains. -/
theorem c7_cursor_advance_demo :
    (fetch_stock_data storeGap 0).2.1 = 1 ∧
    (fetch_stock_data storeGap 0).2.2 = 2 ∧
    (fetch_stock_data storeGap (fetch_stock_data storeGap 0).2.2).2.1 = 1 ∧
    storeGap.map (fun r => r.time) = [1, 2] := by decide

/-- C8 (code_bug, evaluation at the failing input): on storeSeq (times
1, 2, 3; labels equal to positions), subscriber A receives the batch at
time 1 in the first worker round; B then subscribes, and the subscribe
path's own fetch_stock_data() call advances the shared cursor, consuming
the batch at time 2, which is sent to B alone; the next worker round
delivers time 3.  A's received sequence is [1, 3]: the batch at time 2 —
which the cursor did produce, as the last conjunct shows — was skipped
for the existing subscriber A. -/
theorem c8_subscribe_skip_demo :
    (worker_round storeSeq [subA, subB]
       (subscribe_fetch storeSeq subB
         (worker_round storeSeq [subA] (0, fun _ => [])))).2 subA = [1, 3] ∧
    (worker_round storeSeq [subA, subB]
       (subscribe_fetch storeSeq subB
         (worker_round storeSeq [subA] (0, fun _ => [])))).2 subB = [2, 3] ∧
    (fetch_stock_data storeSeq (fetch_stock_data storeSeq 0).2.2).2.1 = 2 := by decide

/-- C9 (code_bug, evaluation at the failing input): with a snapshot
whose stocks list holds an entry for symA, the /stock endpoint returns
that entry, an unknown symbol gives the not-found result and an empty
snapshot the no-data result — but the /api/stocks/{id}/ema endpoint
raises AttributeError for the very symbol that is present, because it
calls .get on the snapshot's stocks list. -/
theorem c9_single_symbol_query_demo :
    get_stock (some [demoEntry]) symA = StockResponse.ok demoEntry ∧
    get_stock (some [demoEntry]) symZ = StockResponse.notFoundFor symZ ∧
    get_stock none symA = StockResponse.noData ∧
    get_stock_ema (some [demoEntry]) symA = EmaResponse.raisedAttrError := by decide

/-- C1 counterexample: the original claim fails on the code.  Feed the
symbol its first valid price 0, then a second valid price 5.  The claim
requires the second update to compute ema38 as
5 * (2/(1+38)) + ema_prev * (1 - 2/(1+38)) with ema_prev = 0, i.e.
10/39; the code instead stores 5, because a stored EMA equal to 0 takes
the initialization branch of calculate_ema. -/
theorem c1_ema_formula_counterexample :
    (calculate_statistics (calculate_statistics initState (some 0)).1 (some 5)).1.ema38
      = some 5 ∧
    some ((5 : ℚ) * (2 / (1 + 38)) + 0 * (1 - 2 / (1 + 38))) ≠ some (5 : ℚ) := by
  decide

/-- C1 (corrected, amended claim): for each period j in 38 and 100, an
update with a valid price q stores, as that period's new EMA, the
sanitized price pyRound4 q when the stored prior EMA is 0 or absent
(in particular the first valid price initializes both EMAs to the price
itself, last two conjuncts), and otherwise the recursive weighting
pyRound4 q * (2/(1+j)) + ema_prev * (1 - 2/(1+j)); each period depends
only on its own stored prior state. -/
theorem c1_ema_update_amended (s : SymbolState) (q : ℚ) :
    ((calculate_statistics s (some q)).1.ema38
      = some (if s.ema38.getD 0 = 0 then pyRound4 q
              else pyRound4 q * (2 / (1 + 38)) + s.ema38.getD 0 * (1 - 2 / (1 + 38)))) ∧
    ((calculate_statistics s (some q)).1.ema100
      = some (if s.ema100.getD 0 = 0 then pyRound4 q
              else pyRound4 q * (2 / (1 + 100)) + s.ema100.getD 0 * (1 - 2 / (1 + 100)))) ∧
    (calculate_statistics initState (some q)).1.ema38 = some (pyRound4 q) ∧
    (calculate_statistics initState (some q)).1.ema100 = some (pyRound4 q) := by
  refine ⟨?_, ?_, ?_, ?_⟩
  · rw [cs_e38]
    unfold rawE38 calculate_ema
    by_cases h : s.ema38.getD 0 = 0 <;> simp [h]
  · rw [cs_e100]
    unfold rawE100 calculate_ema
    by_cases h : s.ema100.getD 0 = 0 <;> simp [h]
  · rw [cs_e38]; rfl
  · rw [cs_e100]; rfl

/-- Bound on the trimmed history after a valid-price update. -/
theorem len_update_some_le (s : SymbolState) (q : ℚ) :
    (calculate_statistics s (some q)).1.price_history.length ≤ 100 := by
  rw [cs_hist]
  simp only [histOf]
  rcases Nat.lt_or_ge 100 (s.price_history ++ [pyRound4 q]).length with h | h
  · rw [if_pos h, List.length_drop]; omega
  · rw [if_neg (Nat.not_lt.mpr h)]; omega

/-- The history bound is preserved by any single update. -/
theorem len_update_le (s : SymbolState) (p : Option ℚ)
    (h : s.price_history.length ≤ 100) :
    (calculate_statistics s p).1.price_history.length ≤ 100 := by
  cases p with
  | none => exact h
  | some q => exact len_update_some_le s q

/-- The history bound is preserved by any stream of updates. -/
theorem len_fold_le (ps : List (Option ℚ)) : ∀ s : SymbolState,
    s.price_history.length ≤ 100 →
    (ps.foldl (fun s p => (calculate_statistics s p).1) s).price_history.length ≤ 100 := by
  induction ps with
  | nil => intro s h; exact h
  | cons p tl ih => intro s h; exact ih _ (len_update_le s p h)

/-- C6 (confirmed): for every update stream of any length the stored
price history never exceeds 100 entries; a single valid-price update
always leaves at most 100 entries; and when the history already holds
100 entries a valid price evicts exactly the oldest entry (the new
history is the old one's tail followed by the sanitized price). -/
theorem c6_history_bound :
    (∀ ps : List (Option ℚ), (run_updates ps).price_history.length ≤ 100) ∧
    (∀ (s : SymbolState) (q : ℚ),
       (calculate_statistics s (some q)).1.price_history.length ≤ 100) ∧
    (∀ (s : SymbolState) (q : ℚ), s.price_history.length = 100 →
       (calculate_statistics s (some q)).1.price_history
         = s.price_history.tail ++ [pyRound4 q]) := by
  refine ⟨fun ps => len_fold_le ps initState (by simp [initState]), len_update_some_le, ?_⟩
  intro s q h
  rw [cs_hist]
  simp only [histOf]
  have hlen : (s.price_history ++ [pyRound4 q]).length = 101 := by simp [h]
  rw [if_pos (by omega : 100 < (s.price_history ++ [pyRound4 q]).length), hlen]
  norm_num
  rw [List.tail_append_of_ne_nil (by intro hnil; rw [hnil] at h; simp at h)]

/-- C6 witness: a concrete 100-entry history evicts its head on the next
valid price. -/
theorem c6_history_bound_witness :
    (calculate_statistics ⟨List.replicate 100 (1:ℚ), none, none, none⟩ (some 2)).1.price_history
      = (List.replicate 100 (1:ℚ)).tail ++ [pyRound4 2] :=
  c6_history_bound.2.2 ⟨List.replicate 100 (1:ℚ), none, none, none⟩ 2 (by simp)

/-- Characterization of the flags and stored state produced by
detect_breakout_patterns. -/
theorem detect_flags (prev : Option CrossState) (a b : ℚ) :
    ((detect_breakout_patterns prev a b).1.1 = true ↔
       (prev ≠ none ∧ prev ≠ classify a b ∧ classify a b = some CrossState.bullish)) ∧
    ((detect_breakout_patterns prev a b).1.2 = true ↔
       (prev ≠ none ∧ prev ≠ classify a b ∧ classify a b = some CrossState.bearish)) ∧
    (detect_breakout_patterns prev a b).2 = classify a b := by
  unfold detect_breakout_patterns
  dsimp only
  refine ⟨?_, ?_, rfl⟩ <;>
  · by_cases h1 : prev = classify a b
    · simp [h1]
    · by_cases h2 : prev = none
      · simp [h1, h2]
      · rw [if_pos ⟨h1, h2⟩]
        cases hc : classify a b with
        | none => simp [hc] at h1 ⊢
        | some r => cases r <;> rw [hc] at h1 <;> simp [h1, h2, hc]

/-- With more than 2 samples after the append, calculate_statistics runs
detect_breakout_patterns on the rounded EMAs. -/
theorem cs_cross_pos (s : SymbolState) (q : ℚ) (h : 2 < (histOf s q).length) :
    (calculate_statistics s (some q)).1.prev_state
        = (detect_breakout_patterns s.prev_state (pyRound4 (rawE38 s q))
             (pyRound4 (rawE100 s q))).2 ∧
    (calculate_statistics s (some q)).2.is_bullish_breakout
        = (detect_breakout_patterns s.prev_state (pyRound4 (rawE38 s q))
             (pyRound4 (rawE100 s q))).1.1 ∧
    (calculate_statistics s (some q)).2.is_bearish_breakout
        = (detect_breakout_patterns s.prev_state (pyRound4 (rawE38 s q))
             (pyRound4 (rawE100 s q))).1.2 := by
  have hd : decide (2 < (histOf s q).length) = true := decide_eq_true h
  simp only [histOf] at hd
  unfold calculate_statistics
  dsimp only [validate_float]
  simp only [rawE38, rawE100, histOf]
  simp only [Option.isSome, Bool.true_and, hd, Bool.and_true]
  exact ⟨rfl, rfl, rfl⟩

/-- With at most 2 samples, calculate_statistics leaves the stored
crossover state alone and raises no flag. -/
theorem cs_cross_neg (s : SymbolState) (q : ℚ) (h : ¬ 2 < (histOf s q).length) :
    (calculate_statistics s (some q)).1.prev_state = s.prev_state ∧
    (calculate_statistics s (some q)).2.is_bullish_breakout = false ∧
    (calculate_statistics s (some q)).2.is_bearish_breakout = false := by
  have hd : decide (2 < (histOf s q).length) = false := decide_eq_false h
  simp only [histOf] at hd
  unfold calculate_statistics
  dsimp only [validate_float]
  simp only [Option.isSome, Bool.true_and, hd, Bool.and_false]
  exact ⟨rfl, rfl, rfl⟩

/-- A state two valid prices deep, holding nonzero EMAs 1 and 2 and a
stored bearish relationship; the next update classifies bullish. -/
def s3cross : SymbolState := ⟨[10, 10], some 1, some 2, some CrossState.bearish⟩

/-- C2 (confirmed): when an update with a valid price reaches more than
2 collected samples (both validated EMAs are always defined on a valid
price in this model), the bullish flag fires exactly on a transition
from a defined, different stored prior relationship into the bullish
classification of the rounded EMAs, symmetrically for bearish — in
particular never on the first classification, when the stored prior
relationship is still none — and the stored prior relationship is
overwritten with the current classification whether or not a flag fired.
With 2 or fewer samples, or an invalid price, no flag fires and the
stored prior relationship is untouched. -/
theorem c2_crossover_signals (s : SymbolState) (q : ℚ) :
    (2 < (calculate_statistics s (some q)).2.samples_collected →
       ((calculate_statistics s (some q)).2.is_bullish_breakout = true ↔
          (s.prev_state ≠ none ∧ s.prev_state ≠ curOf s q ∧
           curOf s q = some CrossState.bullish)) ∧
       ((calculate_statistics s (some q)).2.is_bearish_breakout = true ↔
          (s.prev_state ≠ none ∧ s.prev_state ≠ curOf s q ∧
           curOf s q = some CrossState.bearish)) ∧
       (calculate_statistics s (some q)).1.prev_state = curOf s q) ∧
    ((calculate_statistics s (some q)).2.samples_collected ≤ 2 →
       (calculate_statistics s (some q)).2.is_bullish_breakout = false ∧
       (calculate_statistics s (some q)).2.is_bearish_breakout = false ∧
       (calculate_statistics s (some q)).1.prev_state = s.prev_state) ∧
    ((calculate_statistics s none).2.is_bullish_breakout = false ∧
     (calculate_statistics s none).2.is_bearish_breakout = false ∧
     (calculate_statistics s none).1.prev_state = s.prev_state) := by
  refine ⟨?_, ?_, rfl, rfl, rfl⟩
  · intro h
    rw [cs_samples] at h
    obtain ⟨h1, h2, h3⟩ := cs_cross_pos s q h
    have hd := detect_flags s.prev_state (pyRound4 (rawE38 s q)) (pyRound4 (rawE100 s q))
    have hcur : curOf s q = classify (pyRound4 (rawE38 s q)) (pyRound4 (rawE100 s q)) := rfl
    rw [h1, h2, h3, hcur]
    exact ⟨hd.1, hd.2.1, hd.2.2⟩
  · intro h
    rw [cs_samples] at h
    obtain ⟨h1, h2, h3⟩ := cs_cross_neg s q (by omega)
    exact ⟨h2, h3, h1⟩

/-- C2 witness: on s3cross a third valid price of 100 pushes the rounded
EMA-38 above the rounded EMA-100, a transition from the stored bearish
relationship, and the bullish flag fires. -/
theorem c2_crossover_signals_witness :
    (calculate_statistics s3cross (some 100)).2.is_bullish_breakout = true := by
  have h := (c2_crossover_signals s3cross 100).1 (by decide)
  exact h.1.mpr (by decide)
